import Mathlib

/-!
Verification development for the MxC configuration-resolution core.

Shallow embedding of the two components:
  * the Settings Resolver — `ConfigLoader` in `src/loaders.py`;
  * the Model-Path Document Generator — `ModelPathsGenerator` in
    `src/generate_model_paths.py`.

A parsed INI document is modelled as an association list of sections, each
an association list of string keys to string values (values are the strings
the INI parser stores after reading: surrounding whitespace already
removed, multi-line continuations already joined with newlines).
`configparser` value interpolation (`%`-substitution) is not modelled: no
configuration value relevant to these components uses it.

The Python string methods the source uses (`str.strip`, `str.lower`,
`str.upper`, `str.split` on a newline, `join`, `int(...)`) are modelled by
executable functions over `String.data` below, so that every definition
evaluates inside the kernel.  Case mapping is ASCII and `str.strip` covers
the six ASCII whitespace characters Python strips; the Unicode extensions
of these methods (and underscore digit separators in `int`) are not
modelled — no configuration key or value here exercises them.
-/

set_option linter.unusedVariables false

/-!  ## Python string primitives  -/

/-- The whitespace characters `str.strip` removes (ASCII range): space,
tab, newline, carriage return, vertical tab, form feed. -/
def isPyWS (ch : Char) : Bool :=
  ch == ' ' || ch == '\t' || ch == '\n' || ch == '\r' || ch == '\x0B' || ch == '\x0C'

/-- Python `str.strip` with no argument: drop leading and trailing whitespace. -/
def pyStrip (s : String) : String :=
  ⟨((s.data.dropWhile isPyWS).reverse.dropWhile isPyWS).reverse⟩

/-- ASCII lowercasing of one character. -/
def lowerChar (ch : Char) : Char :=
  if 'A' ≤ ch && ch ≤ 'Z' then Char.ofNat (ch.toNat + 32) else ch

/-- ASCII uppercasing of one character. -/
def upperChar (ch : Char) : Char :=
  if 'a' ≤ ch && ch ≤ 'z' then Char.ofNat (ch.toNat - 32) else ch

/-- Python `str.lower`. -/
def pyLower (s : String) : String := ⟨s.data.map lowerChar⟩

/-- Python `str.upper`. -/
def pyUpper (s : String) : String := ⟨s.data.map upperChar⟩

/-- Split a character list at each newline, keeping empty groups. -/
def splitNlList (l : List Char) : List (List Char) :=
  match l with
  | [] => [[]]
  | ch :: rest =>
    let r := splitNlList rest
    if ch == '\n' then [] :: r
    else
      match r with
      | [] => [[ch]]
      | g :: gs => (ch :: g) :: gs

/-- Python `str.split` on a newline separator: every occurrence separates; empty
pieces are kept (the empty string splits to one empty piece). -/
def pySplitLines (s : String) : List String :=
  (splitNlList s.data).map (fun g => ⟨g⟩)

/-- Python `sep.join(xs)`. -/
def pyJoin (sep : String) : List String → String
  | [] => ""
  | x :: rest => rest.foldl (fun acc y => acc ++ sep ++ y) x

/-- The value of Python `int(s)` on a string, when it parses: surrounding
whitespace stripped, an optional sign, then a nonempty run of decimal
digits. -/
def pyParseInt (s : String) : Option Int :=
  match (pyStrip s).data with
  | [] => none
  | ch :: rest =>
    let digits := if ch == '-' || ch == '+' then rest else ch :: rest
    if digits.length ≠ 0 && digits.all (fun d => d.isDigit) then
      let n : Nat := digits.foldl (fun acc d => acc * 10 + (d.toNat - 48)) 0
      some (if ch == '-' then -(n : Int) else (n : Int))
    else
      none

/-- The `configparser` boolean vocabulary (`BOOLEAN_STATES`), applied to the
lowercased value; anything else fails coercion. -/
def pyParseBool (s : String) : Option Bool :=
  match pyLower s with
  | "1" => some true
  | "yes" => some true
  | "true" => some true
  | "on" => some true
  | "0" => some false
  | "no" => some false
  | "false" => some false
  | "off" => some false
  | _ => none

/-!  ## The configuration document and `configparser` accessors  -/

/-- One parsed INI section: keys mapped to raw string values. -/
abbrev IniSection := List (String × String)

/-- A parsed INI document: named sections in file order. -/
abbrev Config := List (String × IniSection)

/-- The process environment, as populated from the `.env` file. -/
abbrev Env := List (String × String)

/-- Model of `os.getenv`: first binding of the variable, if any. -/
def getenv (env : Env) (k : String) : Option String :=
  (env.find? (fun p => p.1 == k)).map (fun p => p.2)

/-- The errors the embedded `configparser` operations can raise:
`NoSectionError`, `NoOptionError(option, section)`, and `ValueError` from a
failed type coercion (carrying the offending raw value). -/
inductive CfgError where
  | noSection (sect : String)
  | noOption (sect : String) (option : String)
  | valueError (value : String)
deriving DecidableEq, Repr

/-- Find a section by name (`configparser` stores sections uniquely;
lookup returns the first match). -/
def findSection (c : Config) (s : String) : Option IniSection :=
  (c.find? (fun p => p.1 == s)).map (fun p => p.2)

/-- Model of `ConfigParser.has_section`. -/
def hasSection (c : Config) (s : String) : Bool :=
  (findSection c s).isSome

/-- Model of `ConfigParser.get(section, key)` with no fallback: raises
`NoSectionError` when the section is absent and `NoOptionError` when the
key is absent from the section. -/
def getExc (c : Config) (s k : String) : Except CfgError String :=
  match findSection c s with
  | none => .error (.noSection s)
  | some es =>
    match es.find? (fun p => p.1 == k) with
    | some p => .ok p.2
    | none => .error (.noOption s k)

/-- The value of a key when present: `getExc` collapsed to an `Option`. -/
def cfgGet? (c : Config) (s k : String) : Option String :=
  (getExc c s k).toOption

/-- Model of `ConfigParser.get(section, key, fallback=fb)`: the fallback covers both
a missing section and a missing option. -/
def getFb (c : Config) (s k fb : String) : String :=
  match getExc c s k with
  | .ok v => v
  | .error _ => fb

/-- Model of `ConfigParser.get(section, key, fallback=None)`. -/
def getFbNone (c : Config) (s k : String) : Option String :=
  (getExc c s k).toOption

/-- Model of `ConfigParser.options(section)`: the keys of the section, raising
`NoSectionError` when the section is absent. -/
def optionsExc (c : Config) (s : String) : Except CfgError (List String) :=
  match findSection c s with
  | some es => .ok (es.map (fun p => p.1))
  | none => .error (.noSection s)

/-- Model of `ConfigParser.getint(section, key, fallback=fb)`: the fallback applies
only when the section or key is absent; a present value that fails `int`
coercion raises `ValueError`. -/
def getintFb (c : Config) (s k : String) (fb : Int) : Except CfgError Int :=
  match getExc c s k with
  | .error _ => .ok fb
  | .ok v =>
    match pyParseInt v with
    | some n => .ok n
    | none => .error (.valueError v)

/-- Model of `ConfigParser.getboolean(section, key, fallback=fb)`: same fallback
discipline as `getintFb`. -/
def getbooleanFb (c : Config) (s k : String) (fb : Bool) : Except CfgError Bool :=
  match getExc c s k with
  | .error _ => .ok fb
  | .ok v =>
    match pyParseBool v with
    | some b => .ok b
    | none => .error (.valueError v)

/-!  ## Settings Resolver (`ConfigLoader`, src/loaders.py)  -/

/-- Model of `ConfigLoader._get_secret_or_value`: reads the value, strips it; if it
equals the sentinel `.env` case-insensitively, looks the key up in the
environment (exact, then uppercase, then lowercase), returning `none` when
nothing matches; a missing section or key also yields `none` (the
`except` clause returning `None`). -/
def get_secret_or_value (c : Config) (env : Env) (sect key : String) :
    Option String :=
  match getExc c sect key with
  | .error _ => none
  | .ok v0 =>
    let val := pyStrip v0
    if pyLower val == ".env" then
      match getenv env key with
      | some secret => some secret
      | none =>
        match getenv env (pyUpper key) with
        | some secret => some secret
        | none => getenv env (pyLower key)
    else
      some val

/-- The `web` cluster of the resolved settings. -/
structure WebSettings where
  port : Int
  host : String
  remote : Bool
deriving DecidableEq, Repr

/-- The `filesystem` cluster of the resolved settings. -/
structure FsSettings where
  volume_name : String
  volume_mount_location : String
  comfyui_dir : String
  custom_nodes_dir_name : String
  custom_output_dir_name : String
  custom_nodes_dir : String
  custom_output_dir : String
deriving DecidableEq, Repr

/-- The `resources` cluster of the resolved settings. -/
structure Resources where
  gpu_type : String
  cpu : Option String
  memory : Option String
  max_containers : Int
  scaledown_window : Int
  timeout : Int
  max_inputs : Int
deriving DecidableEq, Repr

/-- The structured dictionary `ConfigLoader.load_configs` returns. -/
structure ResolvedSettings where
  tokens : List (String × Option String)
  web : WebSettings
  filesystem : FsSettings
  resources : Resources
deriving DecidableEq, Repr

/-- Step 1 of `load_configs`: the token dictionary.  Iterates the keys of
`TOKENS` (case preserved: the loader sets `optionxform = str`), lowercases
each for the dictionary key and resolves its value through
`get_secret_or_value`.  Raises `NoSectionError` when `TOKENS` is absent. -/
def loadTokens (c : Config) (env : Env) :
    Except CfgError (List (String × Option String)) :=
  match optionsExc c "TOKENS" with
  | .error e => .error e
  | .ok ks =>
    .ok (ks.map (fun k => (pyLower k, get_secret_or_value c env "TOKENS" k)))

/-- Step 2 of `load_configs`: the `web` dictionary, in the source's
evaluation order: `raw_host` (get with fallback, stripped and lowercased),
then `port` (getint with fallback), then the first `"host"` entry (the
localhost-to-0.0.0.0 override), then the second `"host"` entry — a
duplicate dictionary key whose value is `config.get("WEB", "host")` with NO
fallback, which supersedes the override — then `remote`. -/
def loadWeb (c : Config) : Except CfgError WebSettings :=
  let rawHost := pyLower (pyStrip (getFb c "WEB" "host" "0.0.0.0"))
  match getintFb c "WEB" "port" 8000 with
  | .error e => .error e
  | .ok port =>
    let hostOverridden := if rawHost == "localhost" then "0.0.0.0" else rawHost
    -- duplicate dict key: the second "host" value below wins, discarding
    -- hostOverridden
    match getExc c "WEB" "host" with
    | .error e => .error e
    | .ok host =>
      match getbooleanFb c "WEB" "remote" true with
      | .error e => .error e
      | .ok remote => .ok { port := port, host := host, remote := remote }

/-- Step 3 of `load_configs`: the `filesystem` dictionary (`volume_name`,
`volume_mount_location` and `comfyui_dir` are read with no fallback; the
two sub-directory names default), then the two derived paths appended to
the same dictionary by f-string concatenation with a single `/`. -/
def loadFs (c : Config) : Except CfgError FsSettings :=
  match getExc c "FILESYSTEM" "volume_name" with
  | .error e => .error e
  | .ok volume_name =>
    match getExc c "FILESYSTEM" "volume_mount_location" with
    | .error e => .error e
    | .ok vml =>
      match getExc c "FILESYSTEM" "comfyui_dir" with
      | .error e => .error e
      | .ok comfyui_dir =>
        let cnd := getFb c "FILESYSTEM" "custom_nodes_dir_name" "custom_nodes"
        let cod := getFb c "FILESYSTEM" "custom_output_dir_name" "output"
        .ok { volume_name := volume_name
              volume_mount_location := vml
              comfyui_dir := comfyui_dir
              custom_nodes_dir_name := cnd
              custom_output_dir_name := cod
              custom_nodes_dir := vml ++ "/" ++ cnd
              custom_output_dir := vml ++ "/" ++ cod }

/-- Step 4 of `load_configs`: the `resources` dictionary. -/
def loadResources (c : Config) : Except CfgError Resources :=
  let gpu_type := getFb c "RESOURCES" "gpu_type" "t4"
  let cpu := getFbNone c "RESOURCES" "cpu"
  let memory := getFbNone c "RESOURCES" "memory"
  match getintFb c "RESOURCES" "max_containers" 1 with
  | .error e => .error e
  | .ok max_containers =>
    match getintFb c "RESOURCES" "scaledown_window" 30 with
    | .error e => .error e
    | .ok scaledown_window =>
      match getintFb c "RESOURCES" "timeout" 3200 with
      | .error e => .error e
      | .ok timeout =>
        match getintFb c "RESOURCES" "max_inputs" 10 with
        | .error e => .error e
        | .ok max_inputs =>
          .ok { gpu_type := gpu_type, cpu := cpu, memory := memory
                max_containers := max_containers
                scaledown_window := scaledown_window
                timeout := timeout, max_inputs := max_inputs }

/-- Model of `ConfigLoader.load_configs`: the four steps in source order, the first
raised error propagating to the caller. -/
def load_configs (c : Config) (env : Env) : Except CfgError ResolvedSettings :=
  match loadTokens c env with
  | .error e => .error e
  | .ok tokens =>
    match loadWeb c with
    | .error e => .error e
    | .ok web =>
      match loadFs c with
      | .error e => .error e
      | .ok fs =>
        match loadResources c with
        | .error e => .error e
        | .ok resources =>
          .ok { tokens := tokens, web := web, filesystem := fs
                resources := resources }

/-!  ## Model-Path Document Generator (`ModelPathsGenerator`,
src/generate_model_paths.py)

The generator builds its `ConfigParser` with the default `optionxform`
(`str.lower`), so every option key is lowercased as the file is read —
unlike the Settings Resolver, which sets `optionxform = str`.  `readConfig`
models the key transform a parser applies while reading; `configparser`
rejects a file whose transformed keys collide (`DuplicateOptionError`), so
parsed sections have pairwise-distinct keys. -/

/-- The parsed document produced by reading a raw file with option-key
transform `xform` (section names are never transformed). -/
def readConfig (xform : String → String) (raw : Config) : Config :=
  raw.map (fun s => (s.1, s.2.map (fun p => (xform p.1, p.2))))

/-- The settings dictionary `ModelPathsGenerator.get_filesystem_config`
builds. -/
structure GenFsConfig where
  comfyui_dir : String
  volume_mount_location : String
  custom_nodes_dir_name : String
  custom_output_dir_name : String
deriving DecidableEq, Repr

/-- Model of `ModelPathsGenerator.get_filesystem_config`: four `get`s, each with a
fallback covering a missing key and a missing `FILESYSTEM` section alike;
since no lookup can raise, the `except` branches returning `None` never
run. -/
def get_filesystem_config (c : Config) : Option GenFsConfig :=
  some { comfyui_dir := getFb c "FILESYSTEM" "comfyui_dir" "/root/comfy/ComfyUI"
         volume_mount_location :=
           getFb c "FILESYSTEM" "volume_mount_location" "/root/per_comfy-storage"
         custom_nodes_dir_name :=
           getFb c "FILESYSTEM" "custom_nodes_dir_name" "custom_nodes"
         custom_output_dir_name :=
           getFb c "FILESYSTEM" "custom_output_dir_name" "output" }

/-- Model of `ModelPathsGenerator.parse_multiline_config`: split on newlines, keep
the lines whose stripped form is non-empty (Python string truthiness), and
return those lines stripped. -/
def parse_multiline_config (value : String) : List String :=
  ((pySplitLines value).filter (fun line => !(pyStrip line == ""))).map
    (fun line => pyStrip line)

/-- Model of `ModelPathsGenerator._get_default_model_paths`: the hard-coded table of
fifteen model categories over the resolved base path and volume mount; `{}`
when the filesystem config is unavailable. -/
def get_default_model_paths (c : Config) : List (String × String) :=
  match get_filesystem_config c with
  | none => []
  | some fs =>
    let comfyui := fs.comfyui_dir
    let volume := fs.volume_mount_location
    [("checkpoints", comfyui ++ "/models/checkpoints\n" ++ volume ++ "/checkpoints"),
     ("clip", comfyui ++ "/models/clip\n" ++ volume ++ "/text_encoders"),
     ("clip_vision", comfyui ++ "/models/clip_vision"),
     ("configs", comfyui ++ "/models/configs"),
     ("controlnet", comfyui ++ "/models/controlnet"),
     ("diffusion_models", comfyui ++ "/models/diffusion_models\n" ++ volume ++ "/diffusion_models"),
     ("embeddings", comfyui ++ "/models/embeddings"),
     ("gligen", comfyui ++ "/models/gligen"),
     ("hypernetworks", comfyui ++ "/models/hypernetworks"),
     ("inpaint", comfyui ++ "/models/inpaint"),
     ("loras", comfyui ++ "/models/loras\n" ++ volume ++ "/loras"),
     ("sampling", comfyui ++ "/models/sampling"),
     ("upscale_models", comfyui ++ "/models/upscale_models"),
     ("vae", comfyui ++ "/models/vae\n" ++ volume ++ "/vae"),
     ("vae_approx", comfyui ++ "/models/vae_approx")]

/-- Model of `ModelPathsGenerator.get_model_paths`: with no `MODEL_PATHS` section,
the default table; otherwise, for each option of the section, the value
split by `parse_multiline_config` and rejoined with newlines.  A parsed
section is a dict (unique keys), so iterating its options and re-reading
each key visits exactly the section's entries in order; `config.get` cannot
raise for a key obtained from `options`, so the `except` fallback to the
default table never runs. -/
def get_model_paths (c : Config) : List (String × String) :=
  match findSection c "MODEL_PATHS" with
  | none => get_default_model_paths c
  | some es =>
    es.map (fun p => (p.1, pyJoin "\n" (parse_multiline_config p.2)))

/-- Value of a key in the generated mapping (first match). -/
def lookupVal (es : List (String × String)) (k : String) : Option String :=
  (es.find? (fun p => p.1 == k)).map (fun p => p.2)

/-- The exit status of the entry point `generate_extra_model_paths`, as a
function of the outcomes of its two pipeline steps: `sys.exit(1)` when
`generate()` reports failure, `sys.exit(1)` when `validate()` reports
failure, and a normal return (status 0) otherwise.  The two steps do file
input/output; their reported outcomes are taken as inputs here. -/
def generate_extra_model_paths (genOk valOk : Bool) : Nat :=
  if !genOk then 1
  else if !valOk then 1
  else 0

/-!  ## Concrete configurations used to instantiate the theorems  -/

/-- A complete well-formed configuration whose `WEB` section sets
`host = localhost`. -/
def cfgC1 : Config :=
  [("TOKENS", [("HF_TOKEN", "secret123")]),
   ("WEB", [("host", "localhost")]),
   ("FILESYSTEM", [("volume_name", "comfy-vol"),
                   ("volume_mount_location", "/data"),
                   ("comfyui_dir", "/app")])]

/-- The settings `load_configs` resolves `cfgC1` to. -/
def rC1 : ResolvedSettings :=
  { tokens := [("hf_token", some "secret123")]
    web := { port := 8000, host := "localhost", remote := true }
    filesystem := { volume_name := "comfy-vol"
                    volume_mount_location := "/data"
                    comfyui_dir := "/app"
                    custom_nodes_dir_name := "custom_nodes"
                    custom_output_dir_name := "output"
                    custom_nodes_dir := "/data/custom_nodes"
                    custom_output_dir := "/data/output" }
    resources := { gpu_type := "t4", cpu := none, memory := none
                   max_containers := 1, scaledown_window := 30
                   timeout := 3200, max_inputs := 10 } }

/-- A configuration whose `WEB` section has `port` and `remote` but no
`host` key: the input on which the documented host default should apply. -/
def cfgC2 : Config :=
  [("TOKENS", []),
   ("WEB", [("port", "8000"), ("remote", "true")]),
   ("FILESYSTEM", [("volume_name", "comfy-vol"),
                   ("volume_mount_location", "/data"),
                   ("comfyui_dir", "/app")])]

/-- A `TOKENS` section whose value is the sentinel, written with
whitespace and in uppercase. -/
def cfgC3 : Config := [("TOKENS", [("HF_TOKEN", " .ENV ")])]

/-- An environment holding only the lowercase form of the token key. -/
def envC3 : Env := [("hf_token", "abc")]

/-- A configuration whose `WEB` `port` is present but not numeric. -/
def cfgC4 : Config := [("TOKENS", []), ("WEB", [("port", "abc")])]

/-- A configuration with no `MODEL_PATHS` section, `comfyui_dir = /app` and
`volume_mount_location = /vol`. -/
def cfgC5 : Config :=
  [("FILESYSTEM", [("comfyui_dir", "/app"),
                   ("volume_mount_location", "/vol")])]

/-- A complete configuration with `volume_mount_location = /data` and the
sub-directory names left unconfigured. -/
def cfgC6 : Config :=
  [("TOKENS", []),
   ("WEB", [("host", "0.0.0.0")]),
   ("FILESYSTEM", [("volume_name", "v"),
                   ("volume_mount_location", "/data"),
                   ("comfyui_dir", "/app")])]

/-- The settings `load_configs` resolves `cfgC6` to. -/
def rC6 : ResolvedSettings :=
  { tokens := []
    web := { port := 8000, host := "0.0.0.0", remote := true }
    filesystem := { volume_name := "v"
                    volume_mount_location := "/data"
                    comfyui_dir := "/app"
                    custom_nodes_dir_name := "custom_nodes"
                    custom_output_dir_name := "output"
                    custom_nodes_dir := "/data/custom_nodes"
                    custom_output_dir := "/data/output" }
    resources := { gpu_type := "t4", cpu := none, memory := none
                   max_containers := 1, scaledown_window := 30
                   timeout := 3200, max_inputs := 10 } }

/-- A `MODEL_PATHS` section whose single value mixes blank lines,
whitespace-only lines and padded path lines. -/
def mpSectionC7 : IniSection := [("loras", "\n  /a/x \n\n\t\n /b/y\n")]

/-- A configuration carrying `mpSectionC7`. -/
def cfgC7 : Config := [("MODEL_PATHS", mpSectionC7)]

/-- A raw (pre-read) file whose `MODEL_PATHS` key is written in mixed
case. -/
def rawC10 : Config := [("MODEL_PATHS", [("Checkpoints", "/a\n/b")])]

/-!  ## Helper lemmas  -/

lemma cfgGet?_eq_some {c : Config} {s k v : String} :
    cfgGet? c s k = some v ↔ getExc c s k = Except.ok v := by
  unfold cfgGet?
  cases getExc c s k <;> simp [Except.toOption]

lemma cfgGet?_eq_none {c : Config} {s k : String} :
    cfgGet? c s k = none ↔ ∃ e, getExc c s k = Except.error e := by
  unfold cfgGet?
  cases getExc c s k <;> simp [Except.toOption]

lemma getFb_eq_getD (c : Config) (s k fb : String) :
    getFb c s k fb = (cfgGet? c s k).getD fb := by
  unfold getFb cfgGet?
  cases getExc c s k <;> simp [Except.toOption]

lemma getintFb_of_none {c : Config} {s k : String} (fb : Int)
    (h : cfgGet? c s k = none) : getintFb c s k fb = Except.ok fb := by
  obtain ⟨e, he⟩ := cfgGet?_eq_none.mp h
  unfold getintFb
  rw [he]

lemma getbooleanFb_of_none {c : Config} {s k : String} (fb : Bool)
    (h : cfgGet? c s k = none) : getbooleanFb c s k fb = Except.ok fb := by
  obtain ⟨e, he⟩ := cfgGet?_eq_none.mp h
  unfold getbooleanFb
  rw [he]

lemma getintFb_of_malformed {c : Config} {s k v : String} (fb : Int)
    (h : cfgGet? c s k = some v) (hbad : pyParseInt v = none) :
    getintFb c s k fb = Except.error (CfgError.valueError v) := by
  simp only [getintFb, cfgGet?_eq_some.mp h, hbad]

lemma getbooleanFb_of_malformed {c : Config} {s k v : String} (fb : Bool)
    (h : cfgGet? c s k = some v) (hbad : pyParseBool v = none) :
    getbooleanFb c s k fb = Except.error (CfgError.valueError v) := by
  simp only [getbooleanFb, cfgGet?_eq_some.mp h, hbad]

lemma loadTokens_ok_of_hasSection {c : Config} (env : Env)
    (h : hasSection c "TOKENS" = true) :
    ∃ ts, loadTokens c env = Except.ok ts := by
  unfold hasSection at h
  rcases hfs : findSection c "TOKENS" with _ | es
  · rw [hfs] at h; simp at h
  · exact ⟨_, by unfold loadTokens optionsExc; rw [hfs]⟩

lemma loadWeb_host {c : Config} {w : WebSettings}
    (h : loadWeb c = Except.ok w) :
    getExc c "WEB" "host" = Except.ok w.host := by
  unfold loadWeb at h
  split at h
  · exact absurd h (by simp)
  · split at h
    · exact absurd h (by simp)
    · split at h
      · exact absurd h (by simp)
      · cases h
        assumption

lemma load_configs_parts {c : Config} {env : Env} {r : ResolvedSettings}
    (h : load_configs c env = Except.ok r) :
    loadWeb c = Except.ok r.web ∧ loadFs c = Except.ok r.filesystem := by
  unfold load_configs at h
  split at h
  · exact absurd h (by simp)
  · split at h
    · exact absurd h (by simp)
    · split at h
      · exact absurd h (by simp)
      · split at h
        · exact absurd h (by simp)
        · cases h
          constructor <;> assumption

lemma loadFs_fields {c : Config} {fs : FsSettings}
    (h : loadFs c = Except.ok fs) :
    getExc c "FILESYSTEM" "volume_mount_location" =
        Except.ok fs.volume_mount_location ∧
      fs.custom_nodes_dir = fs.volume_mount_location ++ "/" ++
        getFb c "FILESYSTEM" "custom_nodes_dir_name" "custom_nodes" ∧
      fs.custom_output_dir = fs.volume_mount_location ++ "/" ++
        getFb c "FILESYSTEM" "custom_output_dir_name" "output" := by
  unfold loadFs at h
  split at h
  · exact absurd h (by simp)
  · split at h
    · exact absurd h (by simp)
    · split at h
      · exact absurd h (by simp)
      · cases h
        refine ⟨by assumption, rfl, rfl⟩

lemma loadWeb_error_of_bad_port {c : Config} {v : String}
    (hport : cfgGet? c "WEB" "port" = some v)
    (hbad : pyParseInt v = none) :
    loadWeb c = Except.error (CfgError.valueError v) := by
  unfold loadWeb
  rw [getintFb_of_malformed 8000 hport hbad]

lemma load_configs_error_of_bad_port {c : Config} (env : Env) {v : String}
    (htok : hasSection c "TOKENS" = true)
    (hport : cfgGet? c "WEB" "port" = some v)
    (hbad : pyParseInt v = none) :
    load_configs c env = Except.error (CfgError.valueError v) := by
  obtain ⟨ts, hts⟩ := loadTokens_ok_of_hasSection env htok
  unfold load_configs
  rw [hts, loadWeb_error_of_bad_port hport hbad]

lemma findSection_readConfig (f : String → String) (raw : Config)
    (s : String) :
    findSection (readConfig f raw) s =
      (findSection raw s).map (fun es => es.map (fun p => (f p.1, p.2))) := by
  induction raw with
  | nil => simp [readConfig, findSection]
  | cons hd tl ih =>
    by_cases h : hd.1 = s
    · simp [readConfig, findSection, List.find?_cons, h]
    · have hb : (hd.1 == s) = false := by simp [h]
      simp only [readConfig, List.map_cons, findSection, List.find?_cons, hb,
        cond_false] at ih ⊢
      exact ih

lemma parse_multiline_spec (v : String) :
    parse_multiline_config v =
      ((pySplitLines v).map (fun l => pyStrip l)).filter (fun l => l ≠ "") := by
  unfold parse_multiline_config
  rw [show (fun line => !(pyStrip line == "")) =
        ((fun s : String => !(s == "")) ∘ (fun l : String => pyStrip l)) from rfl]
  rw [← List.filter_map]
  apply List.filter_congr
  intro a _
  by_cases h : a = ""
  · subst h; decide
  · simp [h]

/-!  ## Claims  -/

/-- C1: on a configuration whose `WEB` section sets `host = localhost`, a
successful `load_configs` resolves the web host to the literal string
`localhost`, not the wildcard: the computed override is overwritten by the
raw configured value in the same record construction. -/
theorem c1_localhost_survives_load (c : Config) (env : Env)
    (r : ResolvedSettings)
    (hhost : cfgGet? c "WEB" "host" = some "localhost")
    (hok : load_configs c env = Except.ok r) :
    r.web.host = "localhost" ∧ r.web.host ≠ "0.0.0.0" := by
  have hw := (load_configs_parts hok).1
  have h2 := loadWeb_host hw
  rw [cfgGet?_eq_some.mp hhost] at h2
  have h3 : r.web.host = "localhost" := by
    injection h2 with h
    exact h.symm
  exact ⟨h3, by rw [h3]; decide⟩

theorem c1_witness :
    rC1.web.host = "localhost" ∧ rC1.web.host ≠ "0.0.0.0" :=
  c1_localhost_survives_load cfgC1 [] rC1 rfl rfl

/-- C2 (code bug): on a configuration whose `WEB` section lacks `host`,
`load_configs` fails with `NoOptionError` instead of succeeding with the
documented `0.0.0.0` default, because the duplicate `"host"` dictionary
entry re-reads the key with no fallback. -/
theorem c2_missing_host_fails :
    load_configs cfgC2 [] = Except.error (CfgError.noOption "WEB" "host") :=
  rfl

/-- C3: a `TOKENS` value equal to the sentinel `.env` (case-insensitively,
after stripping) resolves through environment lookups in the order exact
key, uppercase key, lowercase key, yielding the first hit and `none` when
all three miss; an absent key also resolves to `none` rather than
raising. -/
theorem c3_sentinel_resolution_order (c : Config) (env : Env) (k v : String)
    (hv : cfgGet? c "TOKENS" k = some v)
    (hsent : pyLower (pyStrip v) = ".env") :
    get_secret_or_value c env "TOKENS" k =
        ((getenv env k).orElse fun _ =>
          ((getenv env (pyUpper k)).orElse fun _ =>
            getenv env (pyLower k))) ∧
      ∀ (c2 : Config) (k2 : String), cfgGet? c2 "TOKENS" k2 = none →
        get_secret_or_value c2 env "TOKENS" k2 = none := by
  constructor
  · simp only [get_secret_or_value, cfgGet?_eq_some.mp hv, hsent]
    cases h1 : getenv env k with
    | some s1 => simp [Option.orElse]
    | none =>
      cases h2 : getenv env (pyUpper k) with
      | some s2 => simp [Option.orElse]
      | none => simp [Option.orElse]
  · intro c2 k2 h
    obtain ⟨e, he⟩ := cfgGet?_eq_none.mp h
    simp only [get_secret_or_value, he]

theorem c3_witness :
    get_secret_or_value cfgC3 envC3 "TOKENS" "HF_TOKEN" = some "abc" ∧
      get_secret_or_value [("TOKENS", [])] envC3 "TOKENS" "MISSING" = none := by
  have h := c3_sentinel_resolution_order cfgC3 envC3 "HF_TOKEN" " .ENV " rfl rfl
  exact ⟨h.1.trans rfl, h.2 [("TOKENS", [])] "MISSING" rfl⟩

/-- C4: a type-coerced key that is present but malformed is fatal —
`load_configs` on a malformed `WEB` `port` fails with `ValueError` instead
of substituting the default — while the documented fallbacks of the `int`
and boolean accessors apply exactly when the key is absent, and every
present-but-malformed value makes those accessors fail. -/
theorem c4_coercion_failure_is_fatal (c : Config) (env : Env) (v : String)
    (htok : hasSection c "TOKENS" = true)
    (hport : cfgGet? c "WEB" "port" = some v)
    (hbad : pyParseInt v = none) :
    load_configs c env = Except.error (CfgError.valueError v) ∧
      (∀ (c2 : Config) (s k : String) (fb : Int),
        cfgGet? c2 s k = none → getintFb c2 s k fb = Except.ok fb) ∧
      (∀ (c2 : Config) (s k : String) (fb : Bool),
        cfgGet? c2 s k = none → getbooleanFb c2 s k fb = Except.ok fb) ∧
      (∀ (c2 : Config) (s k w : String) (fb : Int),
        cfgGet? c2 s k = some w → pyParseInt w = none →
          getintFb c2 s k fb = Except.error (CfgError.valueError w)) ∧
      (∀ (c2 : Config) (s k w : String) (fb : Bool),
        cfgGet? c2 s k = some w → pyParseBool w = none →
          getbooleanFb c2 s k fb = Except.error (CfgError.valueError w)) := by
  refine ⟨load_configs_error_of_bad_port env htok hport hbad, ?_, ?_, ?_, ?_⟩
  · intro c2 s k fb h
    exact getintFb_of_none fb h
  · intro c2 s k fb h
    exact getbooleanFb_of_none fb h
  · intro c2 s k w fb h hb
    exact getintFb_of_malformed fb h hb
  · intro c2 s k w fb h hb
    exact getbooleanFb_of_malformed fb h hb

theorem c4_witness :
    load_configs cfgC4 [] = Except.error (CfgError.valueError "abc") :=
  (c4_coercion_failure_is_fatal cfgC4 [] "abc" rfl rfl rfl).1

/-- C5: with no `MODEL_PATHS` section, the generator returns the built-in
table of exactly fifteen model categories; with `comfyui_dir = /app` and
`volume_mount_location = /vol` configured, the `vae` category maps to the
two-line block `/app/models/vae` newline `/vol/vae`. -/
theorem c5_default_model_path_table (c : Config)
    (hno : hasSection c "MODEL_PATHS" = false)
    (hdir : cfgGet? c "FILESYSTEM" "comfyui_dir" = some "/app")
    (hvol : cfgGet? c "FILESYSTEM" "volume_mount_location" = some "/vol") :
    (get_model_paths c).map Prod.fst =
        ["checkpoints", "clip", "clip_vision", "configs", "controlnet",
         "diffusion_models", "embeddings", "gligen", "hypernetworks",
         "inpaint", "loras", "sampling", "upscale_models", "vae",
         "vae_approx"] ∧
      lookupVal (get_model_paths c) "vae" =
        some "/app/models/vae\n/vol/vae" := by
  have hfs : findSection c "MODEL_PATHS" = none := by
    unfold hasSection at hno
    rcases h : findSection c "MODEL_PATHS" with _ | es
    · rfl
    · rw [h] at hno; simp at hno
  have hd : getFb c "FILESYSTEM" "comfyui_dir" "/root/comfy/ComfyUI" = "/app" := by
    rw [getFb_eq_getD, hdir]
    rfl
  have hv : getFb c "FILESYSTEM" "volume_mount_location"
      "/root/per_comfy-storage" = "/vol" := by
    rw [getFb_eq_getD, hvol]
    rfl
  simp only [get_model_paths, hfs, get_default_model_paths,
    get_filesystem_config, hd, hv]
  exact ⟨rfl, rfl⟩

theorem c5_witness :
    (get_model_paths cfgC5).map Prod.fst =
        ["checkpoints", "clip", "clip_vision", "configs", "controlnet",
         "diffusion_models", "embeddings", "gligen", "hypernetworks",
         "inpaint", "loras", "sampling", "upscale_models", "vae",
         "vae_approx"] ∧
      lookupVal (get_model_paths cfgC5) "vae" =
        some "/app/models/vae\n/vol/vae" :=
  c5_default_model_path_table cfgC5 rfl rfl rfl

/-- C6: when loading succeeds, the two derived directories are exactly the
configured mount location, one `/`, and the sub-directory name (which
defaults to `custom_nodes` resp. `output` when unconfigured) — plain string
concatenation, no normalisation. -/
theorem c6_derived_paths_exact (c : Config) (env : Env)
    (r : ResolvedSettings) (v : String)
    (hok : load_configs c env = Except.ok r)
    (hvol : cfgGet? c "FILESYSTEM" "volume_mount_location" = some v) :
    r.filesystem.custom_nodes_dir =
        v ++ "/" ++
          (cfgGet? c "FILESYSTEM" "custom_nodes_dir_name").getD "custom_nodes" ∧
      r.filesystem.custom_output_dir =
        v ++ "/" ++
          (cfgGet? c "FILESYSTEM" "custom_output_dir_name").getD "output" := by
  have hfs := (load_configs_parts hok).2
  obtain ⟨h1, h2, h3⟩ := loadFs_fields hfs
  rw [cfgGet?_eq_some.mp hvol] at h1
  have hveq : r.filesystem.volume_mount_location = v := by
    injection h1 with h
    exact h.symm
  constructor
  · rw [h2, hveq, getFb_eq_getD]
  · rw [h3, hveq, getFb_eq_getD]

theorem c6_witness :
    rC6.filesystem.custom_nodes_dir = "/data/custom_nodes" ∧
      rC6.filesystem.custom_output_dir = "/data/output" := by
  have h := c6_derived_paths_exact cfgC6 [] rC6 "/data" rfl rfl
  exact ⟨h.1.trans rfl, h.2.trans rfl⟩

/-- C7: a present `MODEL_PATHS` entry is split on newlines, blank and
whitespace-only lines are discarded, the surviving lines are stripped with
their order preserved, and the result is rejoined with newlines as the
category's output value. -/
theorem c7_multiline_values (c : Config) (es : IniSection)
    (hs : findSection c "MODEL_PATHS" = some es) :
    get_model_paths c =
        es.map (fun p => (p.1, pyJoin "\n" (parse_multiline_config p.2))) ∧
      ∀ v, parse_multiline_config v =
        ((pySplitLines v).map (fun l => pyStrip l)).filter (fun l => l ≠ "") := by
  exact ⟨by simp only [get_model_paths, hs], fun v => parse_multiline_spec v⟩

theorem c7_witness :
    get_model_paths cfgC7 = [("loras", "/a/x\n/b/y")] ∧
      parse_multiline_config "\n  /a/x \n\n\t\n /b/y\n" = ["/a/x", "/b/y"] := by
  have h := c7_multiline_values cfgC7 mpSectionC7 rfl
  exact ⟨h.1.trans rfl, (h.2 "\n  /a/x \n\n\t\n /b/y\n").trans rfl⟩

/-- C8: the document-generation entry point exits with status zero exactly
when both the generation step and the validation step succeed, and with a
non-zero status when either reports failure. -/
theorem c8_exit_status (genOk valOk : Bool) :
    (generate_extra_model_paths genOk valOk = 0 ↔
        genOk = true ∧ valOk = true) ∧
      (generate_extra_model_paths genOk valOk ≠ 0 ↔
        genOk = false ∨ valOk = false) := by
  cases genOk <;> cases valOk <;> simp [generate_extra_model_paths]

/-- C9 counterexample: on the empty configuration the `FILESYSTEM` section
is entirely missing, yet `get_filesystem_config` does NOT return null — the
claim that it returns null in that case is false. -/
theorem c9_counterexample :
    hasSection ([] : Config) "FILESYSTEM" = false ∧
      get_filesystem_config ([] : Config) ≠ none := by
  refine ⟨rfl, ?_⟩
  simp [get_filesystem_config]

/-- C9 (amended): `get_filesystem_config` never raises and never returns
null; it always returns the mapping in which each of the four keys takes
its configured value when present and its documented default when absent —
the defaults apply even when the whole `FILESYSTEM` section is missing,
because every lookup carries a fallback and the null branch is
unreachable. -/
theorem c9_filesystem_config_total (c : Config) :
    get_filesystem_config c =
      some { comfyui_dir :=
               (cfgGet? c "FILESYSTEM" "comfyui_dir").getD "/root/comfy/ComfyUI"
             volume_mount_location :=
               (cfgGet? c "FILESYSTEM" "volume_mount_location").getD
                 "/root/per_comfy-storage"
             custom_nodes_dir_name :=
               (cfgGet? c "FILESYSTEM" "custom_nodes_dir_name").getD
                 "custom_nodes"
             custom_output_dir_name :=
               (cfgGet? c "FILESYSTEM" "custom_output_dir_name").getD
                 "output" } := by
  simp only [get_filesystem_config, getFb_eq_getD]

/-- C10: the generator's parser lowercases option keys as the file is read
(default `optionxform`), so a `MODEL_PATHS` entry written `Checkpoints`
is emitted under `checkpoints`; the Settings Resolver's identity transform,
by contrast, leaves every key as written. -/
theorem c10_keys_lowercased (raw : Config) (es : IniSection)
    (hs : findSection raw "MODEL_PATHS" = some es)
    (hnd : (es.map (fun p => pyLower p.1)).Nodup) :
    get_model_paths (readConfig pyLower raw) =
        es.map (fun p =>
          (pyLower p.1, pyJoin "\n" (parse_multiline_config p.2))) ∧
      readConfig (fun s => s) raw = raw := by
  constructor
  · have h := findSection_readConfig pyLower raw "MODEL_PATHS"
    rw [hs] at h
    simp only [Option.map_some'] at h
    simp only [get_model_paths, h, List.map_map]
    rfl
  · simp [readConfig]

theorem c10_witness :
    get_model_paths (readConfig pyLower rawC10) =
      [("checkpoints", "/a\n/b")] := by
  have h := c10_keys_lowercased rawC10 [("Checkpoints", "/a\n/b")] rfl
    (by decide)
  exact h.1.trans rfl
